import Mathlib

/-!
# Buy vs. Rent Calculator — verification of the projection engine

Shallow embedding of the year-by-year projection engine of `src/src/App.jsx`
(the calculation block, lines 58–132).  JavaScript double arithmetic is
modelled over `ℚ` (exact arithmetic); `Math.round` is modelled by
`jsRound x = ⌊x + 1/2⌋`, which matches JavaScript's half-up rounding on all
finite values; `Math.max` is `max`; `Math.pow` with a natural exponent is
`(· ^ ·)`.  The two year counts (`mortgageTerm`, `timeHorizon`) are natural
numbers, as the spec restricts them to integers.
-/

namespace BuyVsRent

/-- The input record of the calculator (the fields of `DEFAULT_VALUES` and of
the `values` state in `App.jsx`). -/
structure Inputs where
  homePrice : ℚ
  downPayment : ℚ
  mortgageRate : ℚ
  mortgageTerm : ℕ
  homeAppreciation : ℚ
  initialRent : ℚ
  rentIncrease : ℚ
  investmentReturn : ℚ
  timeHorizon : ℕ
  closingCostsPercent : ℚ
  sellingCostsPercent : ℚ
  annualOwnershipPercent : ℚ
deriving DecidableEq

/-- JavaScript `Math.round`: round half toward positive infinity. -/
def jsRound (x : ℚ) : ℤ := ⌊x + 1/2⌋

/-- Embeds `App.jsx:59` — `loanAmount = Math.max(0, homePrice - downPayment)`. -/
def loanAmount (i : Inputs) : ℚ := max 0 (i.homePrice - i.downPayment)

/-- Embeds `App.jsx:60` — `monthlyRate = mortgageRate / 100 / 12`. -/
def monthlyRate (i : Inputs) : ℚ := i.mortgageRate / 100 / 12

/-- Embeds `App.jsx:61` — `numPayments = mortgageTerm * 12`. -/
def numPayments (i : Inputs) : ℕ := i.mortgageTerm * 12

/-- Embeds `App.jsx:62-64` — the fixed monthly mortgage payment.  When
`monthlyRate ≤ 0` the code computes `loanAmount / numPayments`; for
`numPayments = 0` the JavaScript division yields Infinity (or NaN when the
loan is 0), which the `ℚ` model cannot represent (division by zero is 0
here); theorems about that branch therefore speak about `numPayments`
directly. -/
def monthlyMortgage (i : Inputs) : ℚ :=
  if monthlyRate i > 0 then
    loanAmount i * monthlyRate i * (1 + monthlyRate i) ^ numPayments i /
      ((1 + monthlyRate i) ^ numPayments i - 1)
  else
    loanAmount i / (numPayments i : ℚ)

/-- Embeds `App.jsx:66` — `monthlyOwnershipExtra = homePrice * annualOwnershipPercent / 100 / 12`. -/
def monthlyOwnershipExtra (i : Inputs) : ℚ :=
  i.homePrice * i.annualOwnershipPercent / 100 / 12

/-- Embeds `App.jsx:67` — `totalMonthlyOwnership = monthlyMortgage + monthlyOwnershipExtra`. -/
def totalMonthlyOwnership (i : Inputs) : ℚ :=
  monthlyMortgage i + monthlyOwnershipExtra i

/-- Embeds `App.jsx:70` — `closingCost = homePrice * (closingCostsPercent / 100)`. -/
def closingCost (i : Inputs) : ℚ := i.homePrice * (i.closingCostsPercent / 100)

/-- Embeds `App.jsx:72` — `years = Array.from({length: timeHorizon + 1}, (_, i) => i)`. -/
def years (i : Inputs) : List ℕ := List.range (i.timeHorizon + 1)

/-- Embeds `App.jsx:82` — `homeValue = homePrice * Math.pow(1 + homeAppreciation / 100, year)`. -/
def homeValue (i : Inputs) (year : ℕ) : ℚ :=
  i.homePrice * (1 + i.homeAppreciation / 100) ^ year

/-- The mutable state threaded through the `for` loop of `App.jsx:80-127`:
the three loop variables of lines 76–78 plus the two output arrays of
lines 73–74. -/
structure LoopState where
  currentRent : ℚ
  cumulativeSavings : ℚ
  remainingLoanBalance : ℚ
  buyNetWorth : List ℤ
  rentNetWorth : List ℤ
deriving DecidableEq

/-- Embeds `App.jsx:73-78` — the state before the first loop iteration. -/
def initState (i : Inputs) : LoopState :=
  { currentRent := i.initialRent
    cumulativeSavings := 0
    remainingLoanBalance := loanAmount i
    buyNetWorth := []
    rentNetWorth := [] }

/-- One iteration of the `for` loop, `App.jsx:80-127`, at loop counter
`year`, transforming the loop state. -/
def loopBody (i : Inputs) (year : ℕ) (s : LoopState) : LoopState :=
  let homeVal := homeValue i year
  let remBal :=
    if 0 < year ∧ 0 < monthlyRate i then
      let paymentsMade := year * 12
      -- `Math.max(0, numPayments - paymentsMade)`: over ℕ the truncated
      -- subtraction already clamps at 0, so this equals the JS value.
      let remainingPayments := max 0 (numPayments i - paymentsMade)
      if 0 < remainingPayments then
        loanAmount i *
          ((1 + monthlyRate i) ^ numPayments i - (1 + monthlyRate i) ^ paymentsMade) /
          ((1 + monthlyRate i) ^ numPayments i - 1)
      else 0
    else s.remainingLoanBalance
  let sellingCost := if year = i.timeHorizon then homeVal * (i.sellingCostsPercent / 100) else 0
  let cumulativeOwnershipCosts := monthlyOwnershipExtra i * 12 * (year : ℚ)
  let buyNet := homeVal - remBal - sellingCost -
      (if year = 0 then closingCost i else 0) - cumulativeOwnershipCosts
  let initialInvestment := i.downPayment + closingCost i
  let investedInitial := initialInvestment * (1 + i.investmentReturn / 100) ^ year
  let cumSav :=
    if 0 < year then
      let yearlySavings := max 0 (totalMonthlyOwnership i * 12 - s.currentRent * 12)
      (s.cumulativeSavings + yearlySavings) * (1 + i.investmentReturn / 100)
    else s.cumulativeSavings
  let newRent :=
    if year < i.timeHorizon then s.currentRent * (1 + i.rentIncrease / 100) else s.currentRent
  { currentRent := newRent
    cumulativeSavings := cumSav
    remainingLoanBalance := remBal
    buyNetWorth := s.buyNetWorth ++ [jsRound (max 0 buyNet)]
    rentNetWorth := s.rentNetWorth ++ [jsRound (investedInitial + cumSav)] }

/-- The loop state after the iterations for years `0, 1, …, y` have run. -/
def runUpTo (i : Inputs) : ℕ → LoopState
  | 0 => loopBody i 0 (initState i)
  | y + 1 => loopBody i (y + 1) (runUpTo i y)

/-- The state after the whole loop (`year` ran from `0` to `timeHorizon`). -/
def finalState (i : Inputs) : LoopState := runUpTo i i.timeHorizon

/-- The `buyNetWorth` output array of `App.jsx:73/109`. -/
def buyNetWorthList (i : Inputs) : List ℤ := (finalState i).buyNetWorth

/-- The `rentNetWorth` output array of `App.jsx:74/124`. -/
def rentNetWorthList (i : Inputs) : List ℤ := (finalState i).rentNetWorth

/-- Embeds `App.jsx:129` — `finalBuy = buyNetWorth[timeHorizon]`. -/
def finalBuy (i : Inputs) : ℤ := (buyNetWorthList i).getD i.timeHorizon 0

/-- Embeds `App.jsx:130` — `finalRent = rentNetWorth[timeHorizon]`. -/
def finalRent (i : Inputs) : ℤ := (rentNetWorthList i).getD i.timeHorizon 0

/-- Embeds `App.jsx:131` — `difference = finalRent - finalBuy`. -/
def difference (i : Inputs) : ℤ := finalRent i - finalBuy i

/-- Embeds `App.jsx:132` — `winner = difference > 0 ? 'Rent & Invest' : 'Buy'`. -/
def winner (i : Inputs) : String :=
  if 0 < difference i then "Rent & Invest" else "Buy"

/-! ## Pure per-year characterizations of the loop state

The loop of `App.jsx:80-127` threads `currentRent`, `cumulativeSavings` and
`remainingLoanBalance` through its iterations.  The following closed-form
definitions describe those state components per year; `runUpTo_spec` below
proves the loop produces exactly these values. -/

/-- Closed form of the `remainingLoanBalance` loop variable at the start of
the push for year `y`: the code recomputes it from scratch for
`year > 0 && monthlyRate > 0` and otherwise leaves the initial `loanAmount`
untouched. -/
def remainingLoanBalancePure (i : Inputs) (y : ℕ) : ℚ :=
  if 0 < y ∧ 0 < monthlyRate i then
    if y * 12 < numPayments i then
      loanAmount i *
        ((1 + monthlyRate i) ^ numPayments i - (1 + monthlyRate i) ^ (y * 12)) /
        ((1 + monthlyRate i) ^ numPayments i - 1)
    else 0
  else loanAmount i

/-- The rent after `y` escalation steps: `initialRent * (1 + rentIncrease/100)^y`. -/
def rentAt (i : Inputs) (y : ℕ) : ℚ :=
  i.initialRent * (1 + i.rentIncrease / 100) ^ y

/-- Closed form of the `cumulativeSavings` loop variable after the iteration
for year `y` (valid for `y ≤ timeHorizon`): each completed year adds the
zero-clamped gap between annual ownership cost and that year's rent, and the
total compounds at the investment return rate. -/
def cumulativeSavingsPure (i : Inputs) : ℕ → ℚ
  | 0 => 0
  | y + 1 =>
      (cumulativeSavingsPure i y +
        max 0 (totalMonthlyOwnership i * 12 - rentAt i (y + 1) * 12)) *
        (1 + i.investmentReturn / 100)

/-- Embeds `App.jsx:100` — selling costs apply only in the final year. -/
def sellingCostAt (i : Inputs) (y : ℕ) : ℚ :=
  if y = i.timeHorizon then homeValue i y * (i.sellingCostsPercent / 100) else 0

/-- The value pushed into `buyNetWorth` for year `y` (`App.jsx:108-109`). -/
def buyEntry (i : Inputs) (y : ℕ) : ℤ :=
  jsRound (max 0 (homeValue i y - remainingLoanBalancePure i y - sellingCostAt i y -
    (if y = 0 then closingCost i else 0) - monthlyOwnershipExtra i * 12 * (y : ℚ)))

/-- The value pushed into `rentNetWorth` for year `y` (`App.jsx:112-124`). -/
def rentEntry (i : Inputs) (y : ℕ) : ℤ :=
  jsRound ((i.downPayment + closingCost i) * (1 + i.investmentReturn / 100) ^ y +
    cumulativeSavingsPure i y)

/-- The loop invariant: after the iterations for years `0..y` (with
`y ≤ timeHorizon`), the three loop variables have their closed-form values
and the two output arrays hold exactly the per-year entries for years
`0..y`. -/
theorem runUpTo_spec (i : Inputs) :
    ∀ y, y ≤ i.timeHorizon →
      (runUpTo i y).currentRent = rentAt i (min (y + 1) i.timeHorizon) ∧
      (runUpTo i y).cumulativeSavings = cumulativeSavingsPure i y ∧
      (runUpTo i y).remainingLoanBalance = remainingLoanBalancePure i y ∧
      (runUpTo i y).buyNetWorth = (List.range (y + 1)).map (buyEntry i) ∧
      (runUpTo i y).rentNetWorth = (List.range (y + 1)).map (rentEntry i) := by
  intro y
  induction y with
  | zero =>
    intro _
    have hbal : (runUpTo i 0).remainingLoanBalance = remainingLoanBalancePure i 0 := by
      simp [runUpTo, loopBody, initState, remainingLoanBalancePure]
    refine ⟨?_, ?_, hbal, ?_, ?_⟩
    · rcases Nat.eq_zero_or_pos i.timeHorizon with h0 | h0
      · simp [runUpTo, loopBody, initState, rentAt, h0]
      · simp [runUpTo, loopBody, initState, rentAt, h0, Nat.min_eq_left h0]
    · simp [runUpTo, loopBody, initState, cumulativeSavingsPure]
    · simp [runUpTo, loopBody, initState, buyEntry, remainingLoanBalancePure,
        sellingCostAt, List.range_succ]
    · simp [runUpTo, loopBody, initState, rentEntry, cumulativeSavingsPure,
        List.range_succ]
  | succ y ih =>
    intro hy
    have hy' : y ≤ i.timeHorizon := Nat.le_of_succ_le hy
    obtain ⟨hrent, hsav, hbal, hbuy, hrentl⟩ := ih hy'
    have hmin : min (y + 1) i.timeHorizon = y + 1 := Nat.min_eq_left hy
    -- the freshly computed balance in iteration y+1 equals the closed form
    have hun : (runUpTo i (y + 1)).remainingLoanBalance =
        if 0 < y + 1 ∧ 0 < monthlyRate i then
          if 0 < max 0 (numPayments i - (y + 1) * 12) then
            loanAmount i *
              ((1 + monthlyRate i) ^ numPayments i -
                (1 + monthlyRate i) ^ ((y + 1) * 12)) /
              ((1 + monthlyRate i) ^ numPayments i - 1)
          else 0
        else (runUpTo i y).remainingLoanBalance := rfl
    have hbal' : (runUpTo i (y + 1)).remainingLoanBalance =
        remainingLoanBalancePure i (y + 1) := by
      rw [hun]
      by_cases hr : 0 < monthlyRate i
      · have hb : 0 < y + 1 ∧ 0 < monthlyRate i := ⟨Nat.succ_pos y, hr⟩
        unfold remainingLoanBalancePure
        rw [if_pos hb, if_pos hb]
        by_cases hp : (y + 1) * 12 < numPayments i
        · have hm : 0 < max 0 (numPayments i - (y + 1) * 12) := by omega
          rw [if_pos hm, if_pos hp]
        · have hm : ¬ 0 < max 0 (numPayments i - (y + 1) * 12) := by omega
          rw [if_neg hm, if_neg hp]
      · have hb : ¬ (0 < y + 1 ∧ 0 < monthlyRate i) := fun h => hr h.2
        have hby : ¬ (0 < y ∧ 0 < monthlyRate i) := fun h => hr h.2
        rw [if_neg hb, hbal]
        unfold remainingLoanBalancePure
        rw [if_neg hby, if_neg hb]
    -- the cumulative savings updated in iteration y+1 equal the closed form
    have hsav' : (runUpTo i (y + 1)).cumulativeSavings =
        cumulativeSavingsPure i (y + 1) := by
      have : (runUpTo i (y + 1)).cumulativeSavings =
          ((runUpTo i y).cumulativeSavings +
            max 0 (totalMonthlyOwnership i * 12 - (runUpTo i y).currentRent * 12)) *
            (1 + i.investmentReturn / 100) := by
        simp [runUpTo, loopBody]
      rw [this, hsav, hrent, hmin, cumulativeSavingsPure]
    refine ⟨?_, hsav', hbal', ?_, ?_⟩
    · by_cases hlt : y + 1 < i.timeHorizon
      · have : (runUpTo i (y + 1)).currentRent =
            (runUpTo i y).currentRent * (1 + i.rentIncrease / 100) := by
          simp [runUpTo, loopBody, hlt]
        rw [this, hrent, hmin]
        have hmin2 : min (y + 1 + 1) i.timeHorizon = y + 1 + 1 := Nat.min_eq_left hlt
        rw [hmin2]
        unfold rentAt
        ring
      · have heq : y + 1 = i.timeHorizon := Nat.le_antisymm hy (Nat.le_of_not_lt hlt)
        have : (runUpTo i (y + 1)).currentRent = (runUpTo i y).currentRent := by
          simp [runUpTo, loopBody, hlt]
        rw [this, hrent, hmin]
        have hmin2 : min (y + 1 + 1) i.timeHorizon = i.timeHorizon := by omega
        rw [hmin2, heq]
    · have hpush : (runUpTo i (y + 1)).buyNetWorth =
          (runUpTo i y).buyNetWorth ++
            [jsRound (max 0 (homeValue i (y + 1) -
              (runUpTo i (y + 1)).remainingLoanBalance - sellingCostAt i (y + 1) -
              0 - monthlyOwnershipExtra i * 12 * ((y + 1 : ℕ) : ℚ)))] := by
        simp [runUpTo, loopBody, sellingCostAt]
      rw [hpush, hbal', hbuy, List.range_succ (y + 1)]
      simp [buyEntry]
    · have hpush : (runUpTo i (y + 1)).rentNetWorth =
          (runUpTo i y).rentNetWorth ++
            [jsRound ((i.downPayment + closingCost i) *
              (1 + i.investmentReturn / 100) ^ (y + 1) +
              (runUpTo i (y + 1)).cumulativeSavings)] := by
        simp [runUpTo, loopBody]
      rw [hpush, hsav', hrentl, List.range_succ (y + 1)]
      simp [rentEntry]

/-! ## Consequences of the loop invariant -/

/-- The buy-side output array is the per-year entry for years `0..timeHorizon`. -/
theorem buyNetWorthList_eq (i : Inputs) :
    buyNetWorthList i = (List.range (i.timeHorizon + 1)).map (buyEntry i) :=
  (runUpTo_spec i i.timeHorizon le_rfl).2.2.2.1

/-- The rent-side output array is the per-year entry for years `0..timeHorizon`. -/
theorem rentNetWorthList_eq (i : Inputs) :
    rentNetWorthList i = (List.range (i.timeHorizon + 1)).map (rentEntry i) :=
  (runUpTo_spec i i.timeHorizon le_rfl).2.2.2.2

theorem getD_map_range (f : ℕ → ℤ) (n y : ℕ) (hy : y < n) :
    ((List.range n).map f).getD y 0 = f y := by
  rw [List.getD_eq_getElem?_getD, List.getElem?_map, List.getElem?_range hy]
  rfl

theorem getLast?_map_range (f : ℕ → ℤ) (n : ℕ) :
    ((List.range (n + 1)).map f).getLast? = some (f n) := by
  rw [List.range_succ, List.map_append]
  exact List.getLast?_concat _

/-- The buy-side entry reported for year `y ≤ timeHorizon`. -/
theorem buyList_getD (i : Inputs) (y : ℕ) (hy : y ≤ i.timeHorizon) :
    (buyNetWorthList i).getD y 0 = buyEntry i y := by
  rw [buyNetWorthList_eq]
  exact getD_map_range _ _ _ (Nat.lt_succ_of_le hy)

/-- The rent-side entry reported for year `y ≤ timeHorizon`. -/
theorem rentList_getD (i : Inputs) (y : ℕ) (hy : y ≤ i.timeHorizon) :
    (rentNetWorthList i).getD y 0 = rentEntry i y := by
  rw [rentNetWorthList_eq]
  exact getD_map_range _ _ _ (Nat.lt_succ_of_le hy)

theorem jsRound_eq_of (x : ℚ) (n : ℤ) (h1 : (n : ℚ) ≤ x + 1/2) (h2 : x + 1/2 < n + 1) :
    jsRound x = n := by
  rw [jsRound]
  exact Int.floor_eq_iff.mpr ⟨h1, by exact_mod_cast h2⟩

theorem jsRound_nonneg {x : ℚ} (h : 0 ≤ x) : 0 ≤ jsRound x := by
  rw [jsRound]
  have h2 : (0 : ℚ) ≤ x + 1/2 := by linarith
  exact_mod_cast Int.le_floor.mpr (by exact_mod_cast h2)

theorem buyEntry_nonneg (i : Inputs) (y : ℕ) : 0 ≤ buyEntry i y :=
  jsRound_nonneg (le_max_left 0 _)

theorem cumulativeSavingsPure_nonneg (i : Inputs) (hir : 0 ≤ i.investmentReturn) :
    ∀ y, 0 ≤ cumulativeSavingsPure i y := by
  intro y
  induction y with
  | zero => exact le_rfl
  | succ y ih =>
    have hmul : (0 : ℚ) ≤ 1 + i.investmentReturn / 100 := by linarith
    exact mul_nonneg (add_nonneg ih (le_max_left 0 _)) hmul

/-! ## Concrete inputs used by counterexamples, failing inputs and witnesses -/

/-- Home fully paid in cash (loan 0), all rates zero, 3% closing costs,
horizon 2 years.  Isolates how the closing cost enters the buy formula. -/
def exC1 : Inputs :=
  { homePrice := 100000, downPayment := 100000, mortgageRate := 0, mortgageTerm := 30,
    homeAppreciation := 0, initialRent := 0, rentIncrease := 0, investmentReturn := 0,
    timeHorizon := 2, closingCostsPercent := 3, sellingCostsPercent := 0,
    annualOwnershipPercent := 0 }

/-- Zero-cost home, rent 1000/month: rent far exceeds the (zero) ownership
cost, so the unclamped yearly savings would be −12000. -/
def exC2 : Inputs :=
  { homePrice := 0, downPayment := 0, mortgageRate := 0, mortgageTerm := 30,
    homeAppreciation := 0, initialRent := 1000, rentIncrease := 0, investmentReturn := 0,
    timeHorizon := 1, closingCostsPercent := 0, sellingCostsPercent := 0,
    annualOwnershipPercent := 0 }

/-- A 0%-interest one-year loan over a one-year horizon: the spec requires
`remainingBalance(mortgageTerm) = 0`. -/
def exC3 : Inputs :=
  { homePrice := 100000, downPayment := 0, mortgageRate := 0, mortgageTerm := 1,
    homeAppreciation := 0, initialRent := 0, rentIncrease := 0, investmentReturn := 0,
    timeHorizon := 1, closingCostsPercent := 0, sellingCostsPercent := 0,
    annualOwnershipPercent := 0 }

/-- A zero-length mortgage term (`numPayments = 0`), the configuration the
spec says must be rejected. -/
def exC6 : Inputs :=
  { homePrice := 500000, downPayment := 100000, mortgageRate := 0, mortgageTerm := 0,
    homeAppreciation := 0, initialRent := 0, rentIncrease := 0, investmentReturn := 0,
    timeHorizon := 1, closingCostsPercent := 0, sellingCostsPercent := 0,
    annualOwnershipPercent := 0 }

/-- A `timeHorizon = 0` configuration with nonzero closing (3%) and selling
(6%) percentages. -/
def exC7 : Inputs :=
  { homePrice := 500000, downPayment := 100000, mortgageRate := 0, mortgageTerm := 30,
    homeAppreciation := 0, initialRent := 0, rentIncrease := 0, investmentReturn := 0,
    timeHorizon := 0, closingCostsPercent := 3, sellingCostsPercent := 6,
    annualOwnershipPercent := 0 }

/-- Every input zero (1-year term and horizon): both final net worths are 0,
a tie. -/
def exTie : Inputs :=
  { homePrice := 0, downPayment := 0, mortgageRate := 0, mortgageTerm := 1,
    homeAppreciation := 0, initialRent := 0, rentIncrease := 0, investmentReturn := 0,
    timeHorizon := 1, closingCostsPercent := 0, sellingCostsPercent := 0,
    annualOwnershipPercent := 0 }

/-- Rent 1000 escalating 10% per year over a 2-year horizon. -/
def exC10 : Inputs :=
  { homePrice := 0, downPayment := 0, mortgageRate := 0, mortgageTerm := 1,
    homeAppreciation := 0, initialRent := 1000, rentIncrease := 10, investmentReturn := 0,
    timeHorizon := 2, closingCostsPercent := 0, sellingCostsPercent := 0,
    annualOwnershipPercent := 0 }

/-! ## Claims -/

/-- Formalises the buy-side formula exactly as claim C1 words it: the
one-time closing cost subtracted at every year `y`, not only at year 0.
This follows the claim's words, to be compared with `buyEntry`, which
follows the source. -/
def buyEntryClaimC1 (i : Inputs) (y : ℕ) : ℤ :=
  jsRound (max 0 (homeValue i y - remainingLoanBalancePure i y - sellingCostAt i y -
    closingCost i - monthlyOwnershipExtra i * 12 * (y : ℚ)))

/-- C1 (counterexample): on a fully cash-bought home (loan 0, all rates 0,
3% closing costs, horizon 2), the entry the code reports for year 1 is
100000, while the claim's formula — closing cost subtracted at every year —
gives 97000.  The code subtracts the closing cost only at year 0
(`App.jsx:108`: `year === 0 ? closingCost : 0`). -/
theorem C1_closing_cost_every_year_counterexample :
    (buyNetWorthList exC1).getD 1 0 = 100000 ∧ buyEntryClaimC1 exC1 1 = 97000 ∧
    (buyNetWorthList exC1).getD 1 0 ≠ buyEntryClaimC1 exC1 1 := by
  have h1 : (buyNetWorthList exC1).getD 1 0 = 100000 := by
    rw [buyList_getD exC1 1 (by decide), buyEntry]
    have hmax : max (0:ℚ) (homeValue exC1 1 - remainingLoanBalancePure exC1 1 -
        sellingCostAt exC1 1 - (if (1:ℕ) = 0 then closingCost exC1 else 0) -
        monthlyOwnershipExtra exC1 * 12 * ((1:ℕ):ℚ)) = 100000 := by
      norm_num [homeValue, remainingLoanBalancePure, sellingCostAt, monthlyOwnershipExtra,
        monthlyRate, loanAmount, exC1, max_def]
    rw [hmax]
    exact jsRound_eq_of _ 100000 (by norm_num) (by norm_num)
  have h2 : buyEntryClaimC1 exC1 1 = 97000 := by
    rw [buyEntryClaimC1]
    have hmax : max (0:ℚ) (homeValue exC1 1 - remainingLoanBalancePure exC1 1 -
        sellingCostAt exC1 1 - closingCost exC1 -
        monthlyOwnershipExtra exC1 * 12 * ((1:ℕ):ℚ)) = 97000 := by
      norm_num [homeValue, remainingLoanBalancePure, sellingCostAt, monthlyOwnershipExtra,
        monthlyRate, loanAmount, closingCost, exC1, max_def]
    rw [hmax]
    exact jsRound_eq_of _ 97000 (by norm_num) (by norm_num)
  exact ⟨h1, h2, by rw [h1, h2]; decide⟩

/-- C1 (amended): for every year `y ≤ timeHorizon`, the buy-side entry of the
output series equals `max(0, homeValue(y) − remainingLoanBalance(y) −
sellingCost(y) − (closingCost if y = 0 else 0) −
cumulativeOwnershipExtraCosts(y))` rounded to the nearest currency unit —
the one-time closing cost is subtracted only at year 0. -/
theorem C1_buy_net_worth_formula (i : Inputs) (y : ℕ) (hy : y ≤ i.timeHorizon) :
    (buyNetWorthList i).getD y 0 =
      jsRound (max 0 (homeValue i y - remainingLoanBalancePure i y - sellingCostAt i y -
        (if y = 0 then closingCost i else 0) - monthlyOwnershipExtra i * 12 * (y : ℚ))) :=
  buyList_getD i y hy

/-- Witness for C1 (amended) at `exC1`, year 1. -/
theorem C1_buy_net_worth_formula_witness :
    (1:ℕ) ≤ exC1.timeHorizon ∧
    (buyNetWorthList exC1).getD 1 0 =
      jsRound (max 0 (homeValue exC1 1 - remainingLoanBalancePure exC1 1 -
        sellingCostAt exC1 1 - (if (1:ℕ) = 0 then closingCost exC1 else 0) -
        monthlyOwnershipExtra exC1 * 12 * ((1:ℕ) : ℚ))) :=
  ⟨by decide, C1_buy_net_worth_formula exC1 1 (by decide)⟩

/-- C2 (counterexample): at `exC2` the ownership cost is 0 and the rent is
1000/month, so the unclamped year-1 differential is −12000; yet the code's
reinvested total after year 1 is 0, not −12000 — the savings are clamped at
zero (`App.jsx:118`: `Math.max(0, ...)`), and the rent-side entry stays 0. -/
theorem C2_savings_clamp_counterexample :
    totalMonthlyOwnership exC2 * 12 - rentAt exC2 1 * 12 = -12000 ∧
    (finalState exC2).cumulativeSavings = 0 ∧
    (rentNetWorthList exC2).getD 1 0 = 0 := by
  have hpure : cumulativeSavingsPure exC2 1 = 0 := by
    have h : cumulativeSavingsPure exC2 1 =
        (cumulativeSavingsPure exC2 0 +
          max 0 (totalMonthlyOwnership exC2 * 12 - rentAt exC2 1 * 12)) *
          (1 + exC2.investmentReturn / 100) := rfl
    rw [h]
    norm_num [cumulativeSavingsPure, totalMonthlyOwnership, monthlyMortgage, monthlyRate,
      loanAmount, numPayments, monthlyOwnershipExtra, rentAt, exC2, max_def]
  refine ⟨?_, ?_, ?_⟩
  · norm_num [totalMonthlyOwnership, monthlyMortgage, monthlyRate, loanAmount,
      numPayments, monthlyOwnershipExtra, rentAt, exC2]
  · have h := (runUpTo_spec exC2 exC2.timeHorizon le_rfl).2.1
    rw [finalState, h]
    exact hpure
  · rw [rentList_getD exC2 1 (by decide), rentEntry, hpure]
    have h0 : (exC2.downPayment + closingCost exC2) *
        (1 + exC2.investmentReturn / 100) ^ 1 + 0 = 0 := by
      norm_num [closingCost, exC2]
    rw [h0]
    exact jsRound_eq_of _ 0 (by norm_num) (by norm_num)

/-- C2 (amended): for every completed year `0 < y ≤ timeHorizon`, the savings
added to the reinvested total are `max(0, totalMonthlyOwnership×12 −
currentRent×12)` — floor-clamped at zero, so a negative differential (rent
exceeding ownership cost) adds nothing and never decreases the total. -/
theorem C2_yearly_savings_clamped (i : Inputs) (y : ℕ) (h1 : 0 < y)
    (h2 : y ≤ i.timeHorizon) :
    (runUpTo i y).cumulativeSavings =
      ((runUpTo i (y - 1)).cumulativeSavings +
        max 0 (totalMonthlyOwnership i * 12 - rentAt i y * 12)) *
        (1 + i.investmentReturn / 100) := by
  obtain ⟨z, rfl⟩ : ∃ z, y = z + 1 := ⟨y - 1, (Nat.succ_pred_eq_of_pos h1).symm⟩
  have hz : z ≤ i.timeHorizon := Nat.le_of_succ_le h2
  rw [(runUpTo_spec i (z + 1) h2).2.1, Nat.add_sub_cancel, (runUpTo_spec i z hz).2.1]
  rfl

/-- Witness for C2 (amended) at `exC2`, year 1. -/
theorem C2_yearly_savings_clamped_witness :
    (0:ℕ) < 1 ∧ (1:ℕ) ≤ exC2.timeHorizon ∧
    (runUpTo exC2 1).cumulativeSavings =
      ((runUpTo exC2 (1 - 1)).cumulativeSavings +
        max 0 (totalMonthlyOwnership exC2 * 12 - rentAt exC2 1 * 12)) *
        (1 + exC2.investmentReturn / 100) :=
  ⟨by decide, by decide, C2_yearly_savings_clamped exC2 1 (by decide) (by decide)⟩

/-- C3 (code bug, evaluation at the failing input): at `exC3`
(mortgageRate = 0, mortgageTerm = 1, timeHorizon = 1) the reported balance at
year `mortgageTerm` is still the full 100000 loan, not 0, and in particular
it never decreased — the update at `App.jsx:87` is guarded by
`monthlyRate > 0`, so a 0%-rate loan never amortizes. -/
theorem C3_zero_rate_balance_stuck :
    exC3.mortgageRate = 0 ∧ exC3.timeHorizon = exC3.mortgageTerm ∧
    loanAmount exC3 = 100000 ∧
    (finalState exC3).remainingLoanBalance = 100000 := by
  refine ⟨rfl, rfl, ?_, ?_⟩
  · norm_num [loanAmount, exC3, max_def]
  · have h := (runUpTo_spec exC3 exC3.timeHorizon le_rfl).2.2.1
    rw [finalState, h]
    norm_num [remainingLoanBalancePure, monthlyRate, loanAmount, exC3, max_def]

/-- C4: for every input, the output series has exactly `timeHorizon + 1`
entries on each side, and the year indices are `0, 1, …, timeHorizon` in
strictly increasing order. -/
theorem C4_series_shape (i : Inputs) :
    (buyNetWorthList i).length = i.timeHorizon + 1 ∧
    (rentNetWorthList i).length = i.timeHorizon + 1 ∧
    (years i).length = i.timeHorizon + 1 ∧
    List.Sorted (· < ·) (years i) ∧
    (∀ k, k < i.timeHorizon + 1 → (years i).getD k 0 = k) := by
  refine ⟨?_, ?_, ?_, List.sorted_lt_range _, ?_⟩
  · rw [buyNetWorthList_eq]; simp
  · rw [rentNetWorthList_eq]; simp
  · simp [years]
  · intro k hk
    rw [years, List.getD_eq_getElem?_getD, List.getElem?_range hk]
    rfl

/-- Witness for C4 at `exC1` (timeHorizon 2), index 2. -/
theorem C4_series_shape_witness :
    (2:ℕ) < exC1.timeHorizon + 1 ∧ (years exC1).getD 2 0 = 2 :=
  ⟨by decide, (C4_series_shape exC1).2.2.2.2 2 (by decide)⟩

/-- C5: every buy-side entry of the series is nonnegative — the value pushed
is `Math.round(Math.max(0, buyNet))` (`App.jsx:109`), and out-of-range reads
default to 0. -/
theorem C5_buy_net_worth_nonneg (i : Inputs) (k : ℕ) :
    0 ≤ (buyNetWorthList i).getD k 0 := by
  by_cases hk : k ≤ i.timeHorizon
  · rw [buyList_getD i k hk]
    exact buyEntry_nonneg i k
  · have hlen : (buyNetWorthList i).length ≤ k := by
      rw [buyNetWorthList_eq]
      simp only [List.length_map, List.length_range]
      omega
    rw [List.getD_eq_default _ _ hlen]

/-- C6 (code bug, evaluation at the failing input): with `mortgageTerm = 0`
the zero-rate branch of `App.jsx:62-64` is taken and computes
`loanAmount / numPayments` with `numPayments = 0` — a division by zero
(Infinity in JavaScript) with no configuration error signalled anywhere. -/
theorem C6_monthly_payment_division_by_zero :
    numPayments exC6 = 0 ∧ ¬ 0 < monthlyRate exC6 ∧
    monthlyMortgage exC6 = loanAmount exC6 / (numPayments exC6 : ℚ) ∧
    loanAmount exC6 = 400000 := by
  have h : ¬ monthlyRate exC6 > 0 := by norm_num [monthlyRate, exC6]
  refine ⟨rfl, h, ?_, ?_⟩
  · rw [monthlyMortgage, if_neg h]
  · norm_num [loanAmount, exC6, max_def]

/-- C7 (counterexample): at `exC7` (timeHorizon 0, 3% closing, 6% selling,
loan 400000) the single entry is 55000, while a year-0 value reflecting only
the closing costs would be 85000; the 30000 difference is the selling cost,
which `App.jsx:100` also realizes at year 0 because year 0 is the terminal
year. -/
theorem C7_selling_cost_at_year_zero_counterexample :
    buyNetWorthList exC7 = [55000] ∧
    jsRound (max 0 (exC7.homePrice - loanAmount exC7 - closingCost exC7)) = 85000 ∧
    sellingCostAt exC7 0 = 30000 ∧
    (buyNetWorthList exC7).getD 0 0 ≠
      jsRound (max 0 (exC7.homePrice - loanAmount exC7 - closingCost exC7)) := by
  have hb : buyNetWorthList exC7 = [55000] := by
    rw [buyNetWorthList_eq]
    have h1 : List.range (exC7.timeHorizon + 1) = [0] := by decide
    rw [h1, List.map_cons, List.map_nil]
    have h2 : buyEntry exC7 0 = 55000 := by
      rw [buyEntry]
      have hmax : max (0:ℚ) (homeValue exC7 0 - remainingLoanBalancePure exC7 0 -
          sellingCostAt exC7 0 - (if (0:ℕ) = 0 then closingCost exC7 else 0) -
          monthlyOwnershipExtra exC7 * 12 * ((0:ℕ):ℚ)) = 55000 := by
        norm_num [homeValue, remainingLoanBalancePure, sellingCostAt, closingCost,
          monthlyOwnershipExtra, monthlyRate, loanAmount, exC7, max_def]
      rw [hmax]
      exact jsRound_eq_of _ 55000 (by norm_num) (by norm_num)
    rw [h2]
  have hc : jsRound (max 0 (exC7.homePrice - loanAmount exC7 - closingCost exC7)) =
      85000 := by
    have hmax : max (0:ℚ) (exC7.homePrice - loanAmount exC7 - closingCost exC7) =
        85000 := by
      norm_num [loanAmount, closingCost, exC7, max_def]
    rw [hmax]
    exact jsRound_eq_of _ 85000 (by norm_num) (by norm_num)
  refine ⟨hb, hc, ?_, ?_⟩
  · norm_num [sellingCostAt, homeValue, exC7]
  · rw [hb, hc]
    decide

/-- C7 (amended): with `timeHorizon = 0` the result has exactly one entry
(year 0); its buy-side value deducts BOTH the closing cost and the terminal
selling cost (year 0 is also the final year), with no appreciation and no
amortization; the rent-side value is the rounded invested lump sum
`downPayment + closingCost` with no accrued savings. -/
theorem C7_horizon_zero (i : Inputs) (h : i.timeHorizon = 0) :
    buyNetWorthList i = [jsRound (max 0 (i.homePrice - loanAmount i -
      i.homePrice * (i.sellingCostsPercent / 100) - closingCost i))] ∧
    rentNetWorthList i = [jsRound (i.downPayment + closingCost i)] := by
  have e1 : homeValue i 0 = i.homePrice := by
    rw [homeValue, pow_zero, mul_one]
  have e2 : remainingLoanBalancePure i 0 = loanAmount i := by
    rw [remainingLoanBalancePure, if_neg]
    simp
  have e3 : sellingCostAt i 0 = i.homePrice * (i.sellingCostsPercent / 100) := by
    rw [sellingCostAt, if_pos h.symm, e1]
  constructor
  · rw [buyNetWorthList_eq, h]
    have h1 : List.range (0 + 1) = [0] := by decide
    rw [h1, List.map_cons, List.map_nil]
    have h2 : buyEntry i 0 = jsRound (max 0 (i.homePrice - loanAmount i -
        i.homePrice * (i.sellingCostsPercent / 100) - closingCost i)) := by
      rw [buyEntry, e1, e2, e3]
      congr 1
      congr 1
      norm_num
    rw [h2]
  · rw [rentNetWorthList_eq, h]
    have h1 : List.range (0 + 1) = [0] := by decide
    rw [h1, List.map_cons, List.map_nil]
    have h2 : rentEntry i 0 = jsRound (i.downPayment + closingCost i) := by
      have hz : cumulativeSavingsPure i 0 = 0 := rfl
      rw [rentEntry, hz]
      congr 1
      norm_num
    rw [h2]

/-- Witness for C7 (amended) at `exC7`. -/
theorem C7_horizon_zero_witness :
    exC7.timeHorizon = 0 ∧
    buyNetWorthList exC7 = [jsRound (max 0 (exC7.homePrice - loanAmount exC7 -
      exC7.homePrice * (exC7.sellingCostsPercent / 100) - closingCost exC7))] ∧
    rentNetWorthList exC7 = [jsRound (exC7.downPayment + closingCost exC7)] :=
  ⟨rfl, (C7_horizon_zero exC7 rfl).1, (C7_horizon_zero exC7 rfl).2⟩

/-- C8: `finalBuy` and `finalRent` are the last (year-`timeHorizon`) entries
of the two series, `difference = finalRent − finalBuy`, and the winner label
is the rent scenario exactly when the difference is positive — a tie is
labelled `Buy`. -/
theorem C8_final_comparison (i : Inputs) :
    (buyNetWorthList i).getLast? = some (finalBuy i) ∧
    (rentNetWorthList i).getLast? = some (finalRent i) ∧
    difference i = finalRent i - finalBuy i ∧
    (winner i = "Rent & Invest" ↔ 0 < difference i) ∧
    (difference i = 0 → winner i = "Buy") := by
  have hb : finalBuy i = buyEntry i i.timeHorizon := by
    rw [finalBuy, buyList_getD i i.timeHorizon le_rfl]
  have hr : finalRent i = rentEntry i i.timeHorizon := by
    rw [finalRent, rentList_getD i i.timeHorizon le_rfl]
  refine ⟨?_, ?_, rfl, ?_, ?_⟩
  · rw [buyNetWorthList_eq, getLast?_map_range, hb]
  · rw [rentNetWorthList_eq, getLast?_map_range, hr]
  · constructor
    · intro hw
      by_contra hd
      simp only [winner, if_neg hd] at hw
      exact absurd hw (by decide)
    · intro hd
      simp only [winner, if_pos hd]
  · intro hd
    simp only [winner]
    rw [if_neg (by omega)]

/-- Witness for C8 at the all-zero tie input: the tie is labelled `Buy`. -/
theorem C8_final_comparison_witness : winner exTie = "Buy" := by
  have hb : finalBuy exTie = 0 := by
    rw [finalBuy, buyList_getD exTie exTie.timeHorizon le_rfl, buyEntry]
    have hmax : max (0:ℚ) (homeValue exTie exTie.timeHorizon -
        remainingLoanBalancePure exTie exTie.timeHorizon -
        sellingCostAt exTie exTie.timeHorizon -
        (if exTie.timeHorizon = 0 then closingCost exTie else 0) -
        monthlyOwnershipExtra exTie * 12 * (exTie.timeHorizon : ℚ)) = 0 := by
      norm_num [homeValue, remainingLoanBalancePure, sellingCostAt, closingCost,
        monthlyOwnershipExtra, monthlyRate, loanAmount, exTie, max_def]
    rw [hmax]
    exact jsRound_eq_of _ 0 (by norm_num) (by norm_num)
  have hrent : finalRent exTie = 0 := by
    rw [finalRent, rentList_getD exTie exTie.timeHorizon le_rfl, rentEntry]
    have hpure : cumulativeSavingsPure exTie 1 = 0 := by
      have h : cumulativeSavingsPure exTie 1 =
          (cumulativeSavingsPure exTie 0 +
            max 0 (totalMonthlyOwnership exTie * 12 - rentAt exTie 1 * 12)) *
            (1 + exTie.investmentReturn / 100) := rfl
      rw [h]
      norm_num [cumulativeSavingsPure, totalMonthlyOwnership, monthlyMortgage,
        monthlyRate, loanAmount, numPayments, monthlyOwnershipExtra, rentAt, exTie,
        max_def]
    have h0 : (exTie.downPayment + closingCost exTie) *
        (1 + exTie.investmentReturn / 100) ^ exTie.timeHorizon +
        cumulativeSavingsPure exTie exTie.timeHorizon = 0 := by
      have : cumulativeSavingsPure exTie exTie.timeHorizon =
          cumulativeSavingsPure exTie 1 := rfl
      rw [this, hpure]
      norm_num [closingCost, exTie]
    rw [h0]
    exact jsRound_eq_of _ 0 (by norm_num) (by norm_num)
  have hd : difference exTie = 0 := by
    rw [difference, hb, hrent]
    decide
  exact (C8_final_comparison exTie).2.2.2.2 hd

/-- C9 (implicit): with nonnegative downPayment, initialRent,
closingCostsPercent, homePrice and investmentReturn, every rent-side entry
of the series is nonnegative — the yearly savings are floored at zero before
reinvestment and the invested lump sum is nonnegative. -/
theorem C9_rent_net_worth_nonneg (i : Inputs) (hdp : 0 ≤ i.downPayment)
    (hrent : 0 ≤ i.initialRent) (hcc : 0 ≤ i.closingCostsPercent)
    (hhp : 0 ≤ i.homePrice) (hir : 0 ≤ i.investmentReturn) (k : ℕ) :
    0 ≤ (rentNetWorthList i).getD k 0 := by
  by_cases hk : k ≤ i.timeHorizon
  · rw [rentList_getD i k hk, rentEntry]
    apply jsRound_nonneg
    have hccq : 0 ≤ closingCost i := by
      rw [closingCost]
      exact mul_nonneg hhp (div_nonneg hcc (by norm_num))
    have hbase : (0:ℚ) ≤ 1 + i.investmentReturn / 100 := by
      have := div_nonneg hir (show (0:ℚ) ≤ 100 by norm_num)
      linarith
    exact add_nonneg (mul_nonneg (add_nonneg hdp hccq) (pow_nonneg hbase k))
      (cumulativeSavingsPure_nonneg i hir k)
  · have hlen : (rentNetWorthList i).length ≤ k := by
      rw [rentNetWorthList_eq]
      simp only [List.length_map, List.length_range]
      omega
    rw [List.getD_eq_default _ _ hlen]

/-- Witness for C9 at `exC2`, index 0. -/
theorem C9_rent_net_worth_nonneg_witness :
    (0:ℚ) ≤ exC2.downPayment ∧ 0 ≤ (rentNetWorthList exC2).getD 0 0 :=
  ⟨by norm_num [exC2],
    C9_rent_net_worth_nonneg exC2 (by norm_num [exC2]) (by norm_num [exC2])
      (by norm_num [exC2]) (by norm_num [exC2]) (by norm_num [exC2]) 0⟩

/-- C10 (implicit): the rent used by the savings differential of year
`0 < y ≤ timeHorizon` is `initialRent × (1 + rentIncreaseRate/100)^y` — the
escalation of `App.jsx:126` runs at the end of every iteration with
`year < timeHorizon`, including year 0, so already the first year of savings
is charged one escalation step. -/
theorem C10_savings_use_escalated_rent (i : Inputs) (y : ℕ) (h1 : 0 < y)
    (h2 : y ≤ i.timeHorizon) :
    (runUpTo i (y - 1)).currentRent =
      i.initialRent * (1 + i.rentIncrease / 100) ^ y ∧
    (runUpTo i y).cumulativeSavings =
      ((runUpTo i (y - 1)).cumulativeSavings +
        max 0 (totalMonthlyOwnership i * 12 -
          i.initialRent * (1 + i.rentIncrease / 100) ^ y * 12)) *
        (1 + i.investmentReturn / 100) := by
  obtain ⟨z, rfl⟩ : ∃ z, y = z + 1 := ⟨y - 1, (Nat.succ_pred_eq_of_pos h1).symm⟩
  have hz : z ≤ i.timeHorizon := Nat.le_of_succ_le h2
  have hmin : min (z + 1) i.timeHorizon = z + 1 := Nat.min_eq_left h2
  constructor
  · rw [Nat.add_sub_cancel, (runUpTo_spec i z hz).1, hmin]
    simp only [rentAt]
  · rw [(runUpTo_spec i (z + 1) h2).2.1, Nat.add_sub_cancel,
      (runUpTo_spec i z hz).2.1]
    have h : cumulativeSavingsPure i (z + 1) =
        (cumulativeSavingsPure i z +
          max 0 (totalMonthlyOwnership i * 12 - rentAt i (z + 1) * 12)) *
          (1 + i.investmentReturn / 100) := rfl
    rw [h]
    simp only [rentAt]

/-- Witness for C10 at `exC10` (rent 1000, +10%/year), year 1: the rent used
is 1100, one escalation step above the initial rent. -/
theorem C10_savings_use_escalated_rent_witness :
    (runUpTo exC10 (1 - 1)).currentRent =
      exC10.initialRent * (1 + exC10.rentIncrease / 100) ^ 1 ∧
    (runUpTo exC10 1).cumulativeSavings =
      ((runUpTo exC10 (1 - 1)).cumulativeSavings +
        max 0 (totalMonthlyOwnership exC10 * 12 -
          exC10.initialRent * (1 + exC10.rentIncrease / 100) ^ 1 * 12)) *
        (1 + exC10.investmentReturn / 100) :=
  C10_savings_use_escalated_rent exC10 1 (by decide) (by decide)

end BuyVsRent
